import Mathlib

/-!
Verification of the container-analysis metadata client
(`pkg/kritis/metadata/containeranalysis/containeranalysis.go`).

Strings are modelled by Lean `String`; Go `strings.Split` with a
single-character separator is modelled by `splitChar` below, which has the
same semantics (splitting the empty string yields `[""]`, separators at the
ends yield empty segments).  Remote calls and the external signer are
modelled as explicit function parameters, and the pagination iterator as a
list of steps; the functions return the request they would issue (or `none`
when no remote call is made) alongside their result.
-/

namespace ContainerAnalysis

/-- Split a list of characters at every occurrence of `c`
(the semantics of Go `strings.Split` with a one-character separator). -/
def splitOnCharAux (c : Char) : List Char → List (List Char)
  | [] => [[]]
  | x :: xs =>
    let r := splitOnCharAux c xs
    if x = c then [] :: r
    else
      match r with
      | [] => [[x]]
      | y :: ys => (x :: y) :: ys

/-- Go `strings.Split(s, sep)` for a one-character separator `sep = c`. -/
def splitChar (c : Char) (s : String) : List String :=
  (splitOnCharAux c s.data).map String.mk

/-- Modelled from the spec: `constants.ResourceUrlPrefix`, the fixed constant
prefix prepended to an image reference to form its resource locator.  The
constant's declaration (`pkg/kritis/constants`) is not part of the sources;
the spec fixes only that it is a constant string, so a representative
concrete value is used. -/
def ResourceUrlPrefix : String := "https://"

/-- Modelled from the spec: `constants.PageSize`, the fixed page size shared
by all listings.  The declaration is not part of the sources; the spec fixes
only that it is a constant. -/
def PageSize : Int := 100

/-- `isRegistryGCR` (containeranalysis.go:143-152): split the registry host
on `.`; reject fewer than two labels; accept exactly when the last two
labels are `gcr` and `io`. -/
def isRegistryGCR (r : String) : Bool :=
  let registry := splitChar '.' r
  if registry.length < 2 then false
  else if registry.getD (registry.length - 2) "" ≠ "gcr"
      ∨ registry.getD (registry.length - 1) "" ≠ "io" then false
  else true

/-- Modelled from the spec: the lenient image-reference parse performed by
the external library call `name.ParseReference(_, name.WeakValidation)`
followed by `ref.Context().RegistryStr()` (the library is not part of the
sources).  Per spec §4.1 the parse is weak/lenient: it fails only on an
empty input; an explicit registry host is the first `/`-segment when it
looks like a host (contains `.` or `:`, or is `localhost`); otherwise the
library's default registry (a non-trusted host) is reported. -/
def parseImageRegistry (s : String) : Option String :=
  if s = "" then none
  else
    match splitChar '/' s with
    | first :: _ :: _ =>
      if first.data.contains '.' ∨ first.data.contains ':' ∨ first = "localhost"
      then some first
      else some "index.docker.io"
    | _ => some "index.docker.io"

/-- `isValidImageOnGCR` (containeranalysis.go:134-141): parse the reference;
on parse failure log and return false; otherwise test the registry host. -/
def isValidImageOnGCR (containerImage : String) : Bool :=
  match parseImageRegistry containerImage with
  | none => false
  | some registry => isRegistryGCR registry

/-- `getResourceUrl` (containeranalysis.go:154-156):
`fmt.Sprintf("%s%s", constants.ResourceUrlPrefix, containerImage)`. -/
def getResourceUrl (containerImage : String) : String :=
  ResourceUrlPrefix ++ containerImage

/-- `getProjectFromNoteReference` (containeranalysis.go:158-164): split the
note reference on `/`; fewer than three segments is an error; otherwise the
project is segment index 2. -/
def getProjectFromNoteReference (ref : String) : Except String String :=
  let str := splitChar '/' ref
  if str.length < 3 then
    Except.error "Invalid Note Reference. Should be in format <api>/projects/<project_id"
  else
    Except.ok (str.getD 2 "")

/-- `VulnerabilityType_Version_Kind` (genproto enum): `MAXIMUM` is the
sentinel meaning "no maximum / no fix available". -/
inductive VersionKind where
  | NORMAL
  | MINIMUM
  | MAXIMUM
deriving DecidableEq

/-- `VulnerabilityType_Version`: only the `Kind` field is read. -/
structure Version where
  Kind : VersionKind
deriving DecidableEq

/-- `VulnerabilityType_VulnerabilityLocation`: only the `Version` field is
read. -/
structure VulnerabilityLocation where
  Version : Version
deriving DecidableEq

/-- `VulnerabilityType_PackageIssue`: only the `FixedLocation` field is
read. -/
structure PackageIssue where
  FixedLocation : VulnerabilityLocation
deriving DecidableEq

/-- `isFixAvaliable` (containeranalysis.go:124-132): scan the package
issues; if any issue's fixed-location version kind is `MAXIMUM`, no fix is
available (return false); otherwise return true. -/
def isFixAvaliable : List PackageIssue → Bool
  | [] => true
  | pi :: pis =>
    if pi.FixedLocation.Version.Kind = VersionKind.MAXIMUM then false
    else isFixAvaliable pis

/-- Modelled from the spec: `VulnerabilityType_Severity_name`, the fixed
enum-to-name table of the generated protobuf bindings (not part of the
sources); a Go map lookup of a missing key yields the empty string. -/
def VulnerabilityType_Severity_name (n : Int) : String :=
  if n = 0 then "SEVERITY_UNSPECIFIED"
  else if n = 1 then "MINIMAL"
  else if n = 2 then "LOW"
  else if n = 3 then "MEDIUM"
  else if n = 4 then "HIGH"
  else if n = 5 then "CRITICAL"
  else ""

/-- `VulnerabilityType_VulnerabilityDetails`: severity enum value and the
package-issue list. -/
structure VulnerabilityDetails where
  Severity : Int
  PackageIssue : List PackageIssue
deriving DecidableEq

/-- `PgpSignedAttestation`: detached signature plus the key id (the oneof
wrapper `PgpSignedAttestation_PgpKeyId` is collapsed into the field). -/
structure PgpSignedAttestation where
  Signature : String
  PgpKeyId : String
deriving DecidableEq

/-- The occurrence `Details` tagged union (a Go oneof; downcast by type
assertion in the source).  The attestation arm collapses the
`Occurrence_Attestation` / `AttestationAuthority_Attestation` wrappers
around the PGP-signed payload. -/
inductive OccurrenceDetails where
  | vulnerability (vd : VulnerabilityDetails)
  | attestation (att : PgpSignedAttestation)
deriving DecidableEq

/-- `Occurrence`: the fields of the remote record this client reads or
writes. -/
structure Occurrence where
  ResourceUrl : String
  NoteName : String
  Details : OccurrenceDetails
deriving DecidableEq

/-- `metadata.Vulnerability`, the domain result. -/
structure Vulnerability where
  Severity : String
  HasFixAvailable : Bool
  CVE : String
deriving DecidableEq

/-- `GetVulnerabilityFromOccurence` (containeranalysis.go:113-122): the
source type-asserts the vulnerability arm of the details union (a panic on
any other arm, modelled as `none`), then builds the domain record: severity
via the fixed name table, fix availability via `isFixAvaliable`, and the
CVE taken from the occurrence's `NoteName` field. -/
def GetVulnerabilityFromOccurence (occ : Occurrence) : Option Vulnerability :=
  match occ.Details with
  | OccurrenceDetails.vulnerability vd =>
    some { Severity := VulnerabilityType_Severity_name vd.Severity
           HasFixAvailable := isFixAvaliable vd.PackageIssue
           CVE := occ.NoteName }
  | _ => none

/-- One step of the remote pagination iterator: a record, the distinguished
`iterator.Done` sentinel, or any other error. -/
inductive IterStep where
  | item (occ : Occurrence)
  | done
  | fail (e : String)

/-- `ListOccurrencesRequest`: the fields the source fills in. -/
structure ListOccurrencesRequest where
  Filter : String
  RequestPageSize : Int
  Parent : String
deriving DecidableEq

/-- The pagination loop of `fethcOccurrence` (containeranalysis.go:100-109):
repeatedly take the next step, accumulating records; the `done` sentinel
ends the loop returning the accumulated records; any other error returns
that error, discarding the accumulator.  An exhausted step list behaves
like the sentinel (a real iterator keeps answering `Done`). -/
def drainOccurrencesAux (acc : List Occurrence) : List IterStep → Except String (List Occurrence)
  | [] => Except.ok acc.reverse
  | IterStep.done :: _ => Except.ok acc.reverse
  | IterStep.fail e :: _ => Except.error e
  | IterStep.item occ :: rest => drainOccurrencesAux (occ :: acc) rest

/-- Run the pagination loop from an empty accumulator. -/
def drainOccurrences (steps : List IterStep) : Except String (List Occurrence) :=
  drainOccurrencesAux [] steps

/-- `fethcOccurrence` (containeranalysis.go:87-111).  The remote client is
the parameter `listOccurrences`, mapping the request to the iterator's
steps.  Returns the issued request (`none` when validation rejects the
image and no remote call is made) together with the result.  The source
indexes `strings.Split(containerImage, "/")[1]` unconditionally; the index
is in bounds whenever this line is reached (see the safety theorem for
`isValidImageOnGCR`). -/
def fethcOccurrence (containerImage kind : String)
    (listOccurrences : ListOccurrencesRequest → List IterStep) :
    Option ListOccurrencesRequest × Except String (List Occurrence) :=
  if ! isValidImageOnGCR containerImage then
    (none, Except.error (containerImage ++ " is not a valid image hosted in GCR"))
  else
    let project := (splitChar '/' containerImage).getD 1 ""
    let req : ListOccurrencesRequest :=
      { Filter := "resource_url=\"" ++ getResourceUrl containerImage ++ "\" AND kind=\"" ++ kind ++ "\""
        RequestPageSize := PageSize
        Parent := "projects/" ++ project }
    (some req, drainOccurrences (listOccurrences req))

/-- Modelled from the spec: `kritisv1beta1.AttestationAuthority`, the
caller-supplied authority descriptor (its declaration is not part of the
sources); the source reads its `Name`, `Namespace` and `NoteReference`
fields. -/
structure AttestationAuthority where
  Name : String
  Namespace : String
  NoteReference : String
deriving DecidableEq

/-- The note type oneof: the source only ever builds the attestation
authority arm, carrying the hint's human-readable name
(`AttestationAuthority_AttestationAuthorityHint.HumanReadableName`). -/
inductive NoteType where
  | attestationAuthority (humanReadableName : String)
  | other
deriving DecidableEq

/-- `Note`: the fields the source fills in. -/
structure Note where
  Name : String
  ShortDescription : String
  LongDescription : String
  NoteKind : NoteType
deriving DecidableEq

/-- `CreateNoteRequest`: the fields the source fills in. -/
structure CreateNoteRequest where
  ReqNote : Note
  NoteId : String
  Parent : String
deriving DecidableEq

/-- `CreateAttestationNote` (containeranalysis.go:166-192): derive the
project from the note reference (propagating its error), build the note
(name `projects/<project>/notes/<authority name>`, hint equal to the
authority name, fixed short description, long description referencing the
authority's namespace, attestation-authority type) and return the
create-note request the source would issue (note id = authority name,
parent `projects/<project>`); the remote call itself is a pass-through. -/
def CreateAttestationNote (aa : AttestationAuthority) : Except String CreateNoteRequest :=
  match getProjectFromNoteReference aa.NoteReference with
  | Except.error e => Except.error e
  | Except.ok noteProject =>
    let note : Note :=
      { Name := "projects/" ++ noteProject ++ "/notes/" ++ aa.Name
        ShortDescription := "Image Policy Security Attestor"
        LongDescription := "Image Policy Security Attestor deployed in " ++ aa.Namespace ++ " namespace"
        NoteKind := NoteType.attestationAuthority aa.Name }
    Except.ok
      { ReqNote := note
        NoteId := aa.Name
        Parent := "projects/" ++ noteProject }

/-- Modelled from the spec: `secrets.PgpSigningSecret` (its declaration is
not part of the sources); the source forwards only its `SecretName` into
the occurrence, never the private key material. -/
structure PgpSigningSecret where
  SecretName : String
  PrivateKeyMaterial : String
deriving DecidableEq

/-- `CreateOccurrenceRequest`: the fields the source fills in. -/
structure CreateOccurrenceRequest where
  ReqOccurrence : Occurrence
  Parent : String
deriving DecidableEq

/-- `CreateAttestationOccurence` (containeranalysis.go:205-242).  The
external signer (`util.CreateAttestationSignature`) and the remote create
call are parameters.  The first component counts how many times the signer
was invoked; the second is the create-occurrence request issued (`none`
when none is); the third is the result.  Validation failure short-circuits
before the signer; otherwise the signer runs once, its error is propagated,
and on success the occurrence carries the resource locator, the note's
name, and the signature with the signing key's `SecretName` as key id; the
request is scoped to `projects/<second '/'-segment of the reference>`. -/
def CreateAttestationOccurence (note : Note) (containerImage : String)
    (pgpSigningKey : PgpSigningSecret)
    (signer : String → PgpSigningSecret → Except String String)
    (createOccurrence : CreateOccurrenceRequest → Except String Occurrence) :
    Nat × Option CreateOccurrenceRequest × Except String Occurrence :=
  if ! isValidImageOnGCR containerImage then
    (0, none, Except.error (containerImage ++ " is not a valid image hosted in GCR"))
  else
    match signer containerImage pgpSigningKey with
    | Except.error e => (1, none, Except.error e)
    | Except.ok sig =>
      let pgpSignedAttestation : PgpSignedAttestation :=
        { Signature := sig
          PgpKeyId := pgpSigningKey.SecretName }
      let occ : Occurrence :=
        { ResourceUrl := getResourceUrl containerImage
          NoteName := note.Name
          Details := OccurrenceDetails.attestation pgpSignedAttestation }
      let req : CreateOccurrenceRequest :=
        { ReqOccurrence := occ
          Parent := "projects/" ++ (splitChar '/' containerImage).getD 1 "" }
      (1, some req, createOccurrence req)

/-- The registry test accepts exactly the hosts whose `.`-split has at
least two labels ending in `gcr`, `io`. -/
theorem isRegistryGCR_iff (r : String) :
    isRegistryGCR r = true ↔
      (2 ≤ (splitChar '.' r).length ∧
        (splitChar '.' r).getD ((splitChar '.' r).length - 2) "" = "gcr" ∧
        (splitChar '.' r).getD ((splitChar '.' r).length - 1) "" = "io") := by
  unfold isRegistryGCR
  by_cases h1 : (splitChar '.' r).length < 2
  · simp only [h1, if_true]
    constructor
    · intro h; cases h
    · intro h; omega
  · simp only [h1, if_false]
    by_cases h2 : (splitChar '.' r).getD ((splitChar '.' r).length - 2) "" ≠ "gcr"
        ∨ (splitChar '.' r).getD ((splitChar '.' r).length - 1) "" ≠ "io"
    · simp only [h2, if_true]
      constructor
      · intro h; cases h
      · intro h
        rcases h2 with h2 | h2
        · exact absurd h.2.1 h2
        · exact absurd h.2.2 h2
    · simp only [h2, if_false]
      push_neg at h2
      exact ⟨fun _ => ⟨by omega, h2.1, h2.2⟩, fun _ => trivial⟩

/-- Claim C1: the image validator returns false for every reference whose
registry host's last two dot-delimited labels are not `gcr`, `io`; it
returns false for every string that fails to parse; and it returns true
exactly when the parsed registry host splits on `.` into at least two
labels whose last two are `gcr` and `io` — in particular it accepts
`us.gcr.io/proj/img:tag` and rejects `docker.io/proj/img`. -/
theorem valid_image_iff_trusted_registry :
    (∀ s : String, isValidImageOnGCR s = true ↔
      ∃ host : String, parseImageRegistry s = some host ∧
        2 ≤ (splitChar '.' host).length ∧
        (splitChar '.' host).getD ((splitChar '.' host).length - 2) "" = "gcr" ∧
        (splitChar '.' host).getD ((splitChar '.' host).length - 1) "" = "io") ∧
    (∀ s : String, parseImageRegistry s = none → isValidImageOnGCR s = false) ∧
    isValidImageOnGCR "us.gcr.io/proj/img:tag" = true ∧
    isValidImageOnGCR "docker.io/proj/img" = false := by
  refine ⟨?_, ?_, by decide, by decide⟩
  · intro s
    unfold isValidImageOnGCR
    cases hp : parseImageRegistry s with
    | none => simp
    | some host => simp [isRegistryGCR_iff]
  · intro s h
    simp [isValidImageOnGCR, h]

/-- The validator theorem instantiated: the empty string does not parse and
is rejected, and the trusted example is characterised by its parsed host. -/
theorem valid_image_iff_trusted_registry_witness :
    isValidImageOnGCR "" = false ∧
    (isValidImageOnGCR "us.gcr.io/proj/img:tag" = true ↔
      ∃ host : String, parseImageRegistry "us.gcr.io/proj/img:tag" = some host ∧
        2 ≤ (splitChar '.' host).length ∧
        (splitChar '.' host).getD ((splitChar '.' host).length - 2) "" = "gcr" ∧
        (splitChar '.' host).getD ((splitChar '.' host).length - 1) "" = "io") :=
  ⟨valid_image_iff_trusted_registry.2.1 "" (by decide),
    valid_image_iff_trusted_registry.1 "us.gcr.io/proj/img:tag"⟩

/-- Pagination loop, error case: whatever has been accumulated, an error
step aborts with that error (the accumulator is discarded). -/
theorem drainOccurrencesAux_fail (items : List Occurrence) (acc : List Occurrence)
    (e : String) (rest : List IterStep) :
    drainOccurrencesAux acc (items.map IterStep.item ++ IterStep.fail e :: rest) =
      Except.error e := by
  induction items generalizing acc with
  | nil => rfl
  | cons x xs ih =>
    simp only [List.map_cons, List.cons_append, drainOccurrencesAux]
    exact ih (x :: acc)

/-- Pagination loop, sentinel case: the `done` sentinel ends the loop,
returning the records accumulated so far in order. -/
theorem drainOccurrencesAux_done (items : List Occurrence) (acc : List Occurrence)
    (rest : List IterStep) :
    drainOccurrencesAux acc (items.map IterStep.item ++ IterStep.done :: rest) =
      Except.ok (acc.reverse ++ items) := by
  induction items generalizing acc with
  | nil => simp [drainOccurrencesAux]
  | cons x xs ih =>
    simp only [List.map_cons, List.cons_append, drainOccurrencesAux, List.append_eq]
    rw [ih (x :: acc)]
    simp

/-- Claim C2: the occurrence lister fails with the invalid-image error and
issues no remote call when the validator rejects the reference; otherwise
it issues exactly one listing request scoped to
`projects/<second '/'-segment>` with the filter
`resource_url="<locator>" AND kind="<kind>"` and the fixed page size, and
its result is the drained iterator of that request: the `done` sentinel
ends pagination returning all items seen, and any other iterator error is
returned as-is with the gathered occurrences discarded. -/
theorem fetch_occurrence_spec :
    (∀ (img kind : String) (remote : ListOccurrencesRequest → List IterStep),
      isValidImageOnGCR img = false →
        fethcOccurrence img kind remote =
          (none, Except.error (img ++ " is not a valid image hosted in GCR"))) ∧
    (∀ (img kind : String) (remote : ListOccurrencesRequest → List IterStep),
      isValidImageOnGCR img = true →
        (fethcOccurrence img kind remote).1 =
          some { Filter := "resource_url=\"" ++ getResourceUrl img ++ "\" AND kind=\"" ++ kind ++ "\""
                 RequestPageSize := PageSize
                 Parent := "projects/" ++ (splitChar '/' img).getD 1 "" }) ∧
    (∀ (img kind : String) (remote : ListOccurrencesRequest → List IterStep)
        (req : ListOccurrencesRequest),
      isValidImageOnGCR img = true →
        (fethcOccurrence img kind remote).1 = some req →
        (fethcOccurrence img kind remote).2 = drainOccurrences (remote req)) ∧
    (∀ (items : List Occurrence) (e : String) (rest : List IterStep),
      drainOccurrences (items.map IterStep.item ++ IterStep.fail e :: rest) =
        Except.error e) ∧
    (∀ (items : List Occurrence) (rest : List IterStep),
      drainOccurrences (items.map IterStep.item ++ IterStep.done :: rest) =
        Except.ok items) := by
  refine ⟨?_, ?_, ?_, ?_, ?_⟩
  · intro img kind remote h
    simp [fethcOccurrence, h]
  · intro img kind remote h
    simp [fethcOccurrence, h]
  · intro img kind remote req h hreq
    simp only [fethcOccurrence, h, Bool.not_true, Bool.false_eq_true, if_false] at hreq ⊢
    rw [Option.some.injEq] at hreq
    rw [hreq]
  · intro items e rest
    exact drainOccurrencesAux_fail items [] e rest
  · intro items rest
    simpa using drainOccurrencesAux_done items [] rest

/-- The lister theorem instantiated: a rejected reference produces the
invalid-image error with no request; a trusted reference produces the
documented request; a one-error iterator aborts with that error; an
immediate sentinel yields the empty listing. -/
theorem fetch_occurrence_spec_witness :
    fethcOccurrence "docker.io/proj/img" "PACKAGE_VULNERABILITY" (fun _ => []) =
      (none, Except.error ("docker.io/proj/img" ++ " is not a valid image hosted in GCR")) ∧
    (fethcOccurrence "us.gcr.io/proj/img" "PACKAGE_VULNERABILITY" (fun _ => [])).1 =
      some { Filter := "resource_url=\"" ++ getResourceUrl "us.gcr.io/proj/img" ++
                  "\" AND kind=\"" ++ "PACKAGE_VULNERABILITY" ++ "\""
             RequestPageSize := PageSize
             Parent := "projects/" ++ (splitChar '/' "us.gcr.io/proj/img").getD 1 "" } ∧
    drainOccurrences ([].map IterStep.item ++ IterStep.fail "boom" :: []) =
      Except.error "boom" ∧
    drainOccurrences ([].map IterStep.item ++ IterStep.done :: []) =
      Except.ok ([] : List Occurrence) :=
  ⟨fetch_occurrence_spec.1 "docker.io/proj/img" "PACKAGE_VULNERABILITY" (fun _ => []) (by decide),
    fetch_occurrence_spec.2.1 "us.gcr.io/proj/img" "PACKAGE_VULNERABILITY" (fun _ => []) (by decide),
    fetch_occurrence_spec.2.2.2.1 [] "boom" [],
    fetch_occurrence_spec.2.2.2.2 [] []⟩

/-- Claim C3: when the validator rejects the image reference,
`CreateAttestationOccurence` returns the invalid-image error, the signer is
invoked zero times, and no create-occurrence request is issued. -/
theorem create_attestation_occurrence_short_circuits (note : Note) (img : String)
    (key : PgpSigningSecret) (signer : String → PgpSigningSecret → Except String String)
    (createOccurrence : CreateOccurrenceRequest → Except String Occurrence)
    (h : isValidImageOnGCR img = false) :
    CreateAttestationOccurence note img key signer createOccurrence =
      (0, none, Except.error (img ++ " is not a valid image hosted in GCR")) := by
  simp [CreateAttestationOccurence, h]

/-- The short-circuit theorem instantiated at an untrusted reference and a
signer that would answer if it were ever asked. -/
theorem create_attestation_occurrence_short_circuits_witness :
    CreateAttestationOccurence
        { Name := "projects/p/notes/n", ShortDescription := "s", LongDescription := "l"
          NoteKind := NoteType.other }
        "docker.io/proj/img"
        { SecretName := "sec", PrivateKeyMaterial := "priv" }
        (fun _ _ => Except.ok "SIG") (fun _ => Except.error "no remote") =
      (0, none, Except.error ("docker.io/proj/img" ++ " is not a valid image hosted in GCR")) :=
  create_attestation_occurrence_short_circuits
    { Name := "projects/p/notes/n", ShortDescription := "s", LongDescription := "l"
      NoteKind := NoteType.other }
    "docker.io/proj/img"
    { SecretName := "sec", PrivateKeyMaterial := "priv" }
    (fun _ _ => Except.ok "SIG") (fun _ => Except.error "no remote") (by decide)

/-- Claim C4: for a validator-accepted reference and a signer that
succeeds, the submitted occurrence carries the resource locator
`ResourceUrlPrefix ++ imageRef`, the note's full name, and details that are
exactly the produced signature with key id equal to the signing key's
`SecretName` (no private key material); the create call is scoped to
`projects/<second '/'-segment of the reference>`, and its result is the
remote call on exactly that request. -/
theorem create_attestation_occurrence_success (note : Note) (img : String)
    (key : PgpSigningSecret) (signer : String → PgpSigningSecret → Except String String)
    (createOccurrence : CreateOccurrenceRequest → Except String Occurrence) (sig : String)
    (hv : isValidImageOnGCR img = true) (hs : signer img key = Except.ok sig) :
    ∃ req : CreateOccurrenceRequest,
      CreateAttestationOccurence note img key signer createOccurrence =
        (1, some req, createOccurrence req) ∧
      req.ReqOccurrence.ResourceUrl = ResourceUrlPrefix ++ img ∧
      req.ReqOccurrence.NoteName = note.Name ∧
      req.ReqOccurrence.Details =
        OccurrenceDetails.attestation { Signature := sig, PgpKeyId := key.SecretName } ∧
      req.Parent = "projects/" ++ (splitChar '/' img).getD 1 "" := by
  refine ⟨{ ReqOccurrence :=
              { ResourceUrl := getResourceUrl img
                NoteName := note.Name
                Details := OccurrenceDetails.attestation
                  { Signature := sig, PgpKeyId := key.SecretName } }
            Parent := "projects/" ++ (splitChar '/' img).getD 1 "" },
          ?_, rfl, rfl, rfl, rfl⟩
  simp [CreateAttestationOccurence, hv, hs, getResourceUrl]

/-- The success theorem instantiated: a trusted reference, a concrete note
and key, and a signer returning a fixed signature. -/
theorem create_attestation_occurrence_success_witness :
    ∃ req : CreateOccurrenceRequest,
      CreateAttestationOccurence
          { Name := "projects/proj/notes/qa", ShortDescription := "s", LongDescription := "l"
            NoteKind := NoteType.attestationAuthority "qa" }
          "us.gcr.io/proj/img"
          { SecretName := "sec", PrivateKeyMaterial := "priv" }
          (fun _ _ => Except.ok "SIG") (fun r => Except.ok r.ReqOccurrence) =
        (1, some req, Except.ok req.ReqOccurrence) ∧
      req.ReqOccurrence.ResourceUrl = ResourceUrlPrefix ++ "us.gcr.io/proj/img" ∧
      req.ReqOccurrence.NoteName = "projects/proj/notes/qa" ∧
      req.ReqOccurrence.Details =
        OccurrenceDetails.attestation { Signature := "SIG", PgpKeyId := "sec" } ∧
      req.Parent = "projects/" ++ (splitChar '/' "us.gcr.io/proj/img").getD 1 "" :=
  create_attestation_occurrence_success
    { Name := "projects/proj/notes/qa", ShortDescription := "s", LongDescription := "l"
      NoteKind := NoteType.attestationAuthority "qa" }
    "us.gcr.io/proj/img"
    { SecretName := "sec", PrivateKeyMaterial := "priv" }
    (fun _ _ => Except.ok "SIG") (fun r => Except.ok r.ReqOccurrence) "SIG"
    (by decide) rfl

/-- Claim C5, counterexample: on the reference
`https://api/projects/my-proj` the code derives the project `api`, not
`my-proj` — the `//` of the scheme contributes an empty `/`-segment, so
segment index 2 is `api`. -/
theorem note_reference_scenario_counterexample :
    getProjectFromNoteReference "https://api/projects/my-proj" = Except.ok "api" ∧
    getProjectFromNoteReference "https://api/projects/my-proj" ≠ Except.ok "my-proj" := by
  constructor
  · rfl
  · intro h
    have h0 : getProjectFromNoteReference "https://api/projects/my-proj" =
        Except.ok "api" := rfl
    have : ("api" : String) = "my-proj" := Except.ok.inj (h0.symm.trans h)
    exact absurd this (by decide)

/-- Claim C5 as amended: deriving the owning project fails with the
malformed-reference error exactly when splitting on `/` yields fewer than
three segments, and otherwise returns segment index 2; in particular
`https://api/projects/my-proj` derives `api` (not `my-proj`), a reference
of the documented form such as `v1alpha1/projects/my-proj` derives
`my-proj`, and `bad` is a malformed-reference error. -/
theorem get_project_from_note_reference_spec :
    (∀ ref : String,
      getProjectFromNoteReference ref =
        if (splitChar '/' ref).length < 3 then
          Except.error "Invalid Note Reference. Should be in format <api>/projects/<project_id"
        else Except.ok ((splitChar '/' ref).getD 2 "")) ∧
    getProjectFromNoteReference "https://api/projects/my-proj" = Except.ok "api" ∧
    getProjectFromNoteReference "v1alpha1/projects/my-proj" = Except.ok "my-proj" ∧
    getProjectFromNoteReference "bad" =
      Except.error "Invalid Note Reference. Should be in format <api>/projects/<project_id" :=
  ⟨fun _ => rfl, rfl, rfl, rfl⟩

/-- Claim C6: fix availability is false exactly when some package issue's
fixed-location version kind is the `MAXIMUM` sentinel, and it is true for
the empty issue list. -/
theorem has_fix_available_spec :
    (∀ pis : List PackageIssue,
      isFixAvaliable pis = false ↔
        ∃ pi ∈ pis, pi.FixedLocation.Version.Kind = VersionKind.MAXIMUM) ∧
    isFixAvaliable [] = true := by
  refine ⟨?_, rfl⟩
  intro pis
  induction pis with
  | nil => simp [isFixAvaliable]
  | cons p ps ih =>
    by_cases h : p.FixedLocation.Version.Kind = VersionKind.MAXIMUM
    · simp [isFixAvaliable, h]
    · simp [isFixAvaliable, h, ih]

/-- Claim C7: on an occurrence whose details are the vulnerability variant,
the extractor yields severity looked up in the fixed enum-to-name table,
fix availability computed from the package issues, and the CVE taken
directly from the occurrence's note name field. -/
theorem get_vulnerability_from_occurrence_spec (occ : Occurrence)
    (vd : VulnerabilityDetails)
    (h : occ.Details = OccurrenceDetails.vulnerability vd) :
    GetVulnerabilityFromOccurence occ =
      some { Severity := VulnerabilityType_Severity_name vd.Severity
             HasFixAvailable := isFixAvaliable vd.PackageIssue
             CVE := occ.NoteName } := by
  simp [GetVulnerabilityFromOccurence, h]

/-- The extractor theorem instantiated at a concrete vulnerability
occurrence: severity 4 maps to `HIGH`, an empty issue list means a fix is
available, and the CVE is the note name. -/
theorem get_vulnerability_from_occurrence_spec_witness :
    GetVulnerabilityFromOccurence
        { ResourceUrl := "https://us.gcr.io/proj/img"
          NoteName := "providers/goog-vulnz/notes/CVE-2018-1234"
          Details := OccurrenceDetails.vulnerability { Severity := 4, PackageIssue := [] } } =
      some { Severity := VulnerabilityType_Severity_name 4
             HasFixAvailable := isFixAvaliable []
             CVE := "providers/goog-vulnz/notes/CVE-2018-1234" } :=
  get_vulnerability_from_occurrence_spec
    { ResourceUrl := "https://us.gcr.io/proj/img"
      NoteName := "providers/goog-vulnz/notes/CVE-2018-1234"
      Details := OccurrenceDetails.vulnerability { Severity := 4, PackageIssue := [] } }
    { Severity := 4, PackageIssue := [] } rfl

/-- Claim C8: for an authority descriptor whose note reference derives a
project, the built note has full name
`projects/<project>/notes/<authority name>`, hint equal to the authority
name, the fixed short description, the long description naming the
authority's namespace, and attestation-authority type; the create-note
request is scoped to `projects/<project>` with note id equal to the
authority name. -/
theorem create_attestation_note_spec (aa : AttestationAuthority) (proj : String)
    (h : getProjectFromNoteReference aa.NoteReference = Except.ok proj) :
    CreateAttestationNote aa = Except.ok
      { ReqNote :=
          { Name := "projects/" ++ proj ++ "/notes/" ++ aa.Name
            ShortDescription := "Image Policy Security Attestor"
            LongDescription :=
              "Image Policy Security Attestor deployed in " ++ aa.Namespace ++ " namespace"
            NoteKind := NoteType.attestationAuthority aa.Name }
        NoteId := aa.Name
        Parent := "projects/" ++ proj } := by
  simp [CreateAttestationNote, h]

/-- The note-creation theorem instantiated at a concrete descriptor with a
well-formed note reference. -/
theorem create_attestation_note_spec_witness :
    CreateAttestationNote
        { Name := "qa-attestor", Namespace := "test-ns"
          NoteReference := "v1alpha1/projects/my-proj" } =
      Except.ok
        { ReqNote :=
            { Name := "projects/" ++ "my-proj" ++ "/notes/" ++ "qa-attestor"
              ShortDescription := "Image Policy Security Attestor"
              LongDescription :=
                "Image Policy Security Attestor deployed in " ++ "test-ns" ++ " namespace"
              NoteKind := NoteType.attestationAuthority "qa-attestor" }
          NoteId := "qa-attestor"
          Parent := "projects/" ++ "my-proj" } :=
  create_attestation_note_spec
    { Name := "qa-attestor", Namespace := "test-ns"
      NoteReference := "v1alpha1/projects/my-proj" }
    "my-proj" rfl

/-- Claim C9: the resource locator is the fixed constant prefix
concatenated with the raw image reference string, hence it starts with the
prefix and ends with the reference verbatim. -/
theorem resource_url_spec :
    ∀ r : String,
      getResourceUrl r = ResourceUrlPrefix ++ r ∧
      (∃ rest : String, getResourceUrl r = ResourceUrlPrefix ++ rest ∧ rest = r) ∧
      (∃ p : String, getResourceUrl r = p ++ r) :=
  fun r => ⟨rfl, ⟨r, rfl, rfl⟩, ⟨ ResourceUrlPrefix, rfl⟩⟩

/-- Claim C10: every string accepted by the image validator splits on `/`
into at least two segments, so the `strings.Split(containerImage, "/")[1]`
project extraction in the lister and in occurrence creation is in
bounds. -/
theorem valid_image_project_index_safe (s : String)
    (h : isValidImageOnGCR s = true) :
    2 ≤ (splitChar '/' s).length := by
  unfold isValidImageOnGCR at h
  cases hp : parseImageRegistry s with
  | none => rw [hp] at h; cases h
  | some reg =>
    rw [hp] at h
    unfold parseImageRegistry at hp
    by_cases he : s = ""
    · simp [he] at hp
    · rw [if_neg he] at hp
      cases hl : splitChar '/' s with
      | nil =>
        rw [hl] at hp
        simp only [Option.some.injEq] at hp
        rw [← hp] at h
        exact absurd h (by decide)
      | cons a t =>
        cases t with
        | nil =>
          rw [hl] at hp
          simp only [Option.some.injEq] at hp
          rw [← hp] at h
          exact absurd h (by decide)
        | cons b t2 =>
          simp only [List.length_cons]
          omega

/-- The safety theorem instantiated at a trusted reference. -/
theorem valid_image_project_index_safe_witness :
    2 ≤ (splitChar '/' "us.gcr.io/proj/img").length :=
  valid_image_project_index_safe "us.gcr.io/proj/img" (by decide)

end ContainerAnalysis
